import Mathlib

/-!
Verification of the TaskMind task-management store and task board.

This file gives a shallow embedding of the client-side task store
(`src/store/taskStore.ts`), the task board page logic
(`src/pages/TasksPage.tsx`) and the Firestore update-payload construction
(`src/lib/firestore.ts`), and proves properties of the optimistic-update,
rollback, filtering and drag-and-drop logic.

Asynchronous backend calls are modelled by passing in the outcome of the
remote call (`Except JsValue α`); JavaScript thrown values are modelled by
`JsValue`, which records whether the thrown value is an `Error` carrying a
message.  Each store operation returns, besides the new store state, the
ordered list of observable events (local mutation, remote call start,
remote completion, local revert) in the order the source performs them.
-/

namespace TaskMind

/-- Task priority (`'low' | 'medium' | 'high'`, `src/types/index.ts`). -/
inductive Priority where
  | low
  | medium
  | high
deriving DecidableEq

/-- Task status (`'pending' | 'in-progress' | 'completed'`, `src/types/index.ts`). -/
inductive Status where
  | pending
  | inProgress
  | completed
deriving DecidableEq

/-- The `Task` record of `src/types/index.ts`.  Timestamps and ids are
opaque strings; optional fields are `Option`. -/
structure Task where
  id : String
  title : String
  description : String
  dueDate : Option String
  priority : Priority
  status : Status
  category : String
  estimatedTime : Option Nat
  actualTime : Option Nat
  createdAt : String
  updatedAt : String
  userId : String
deriving DecidableEq

/-- The task store state (`TaskState` in `src/store/taskStore.ts`),
without the real-time subscription handle (a function value irrelevant to
the claims). -/
structure TaskState where
  tasks : List Task
  isLoading : Bool
  error : Option String
  isInitialized : Bool
deriving DecidableEq

/-- A JavaScript thrown value: either an `Error` with a message, or any
other value (for which `error instanceof Error` is false). -/
inductive JsValue where
  | error (message : String)
  | nonError
deriving DecidableEq

/-- `error instanceof Error ? error.message : fallback` — the error-message
extraction pattern used in every catch block of `src/store/taskStore.ts`. -/
def errorToMessage (e : JsValue) (fallback : String) : String :=
  match e with
  | .error m => m
  | .nonError => fallback

/-- Observable events of a store operation, in source order. -/
inductive Event where
  | localMutation
  | remoteStart
  | remoteOk
  | remoteErr
  | localRevert
deriving DecidableEq

/--
`moveTask` (`src/store/taskStore.ts`, lines 269-321).

Looks up the task by id (error + early return if absent), returns early if
the status already matches, otherwise applies the optimistic status change
to local state, performs the remote write, and on failure reverts the
tasks array to its pre-call value and records the error message.
-/
def moveTask (st : TaskState) (taskId : String) (newStatus : Status)
    (remote : Except JsValue Unit) : TaskState × List Event :=
  match st.tasks.find? (fun t => t.id == taskId) with
  | none =>
      ({ st with error := some ("Task " ++ taskId ++ " not found") }, [])
  | some taskToMove =>
      if taskToMove.status = newStatus then
        (st, [])
      else
        let optimisticTasks := st.tasks.map (fun t =>
          if t.id == taskId then { t with status := newStatus } else t)
        let st1 := { st with tasks := optimisticTasks }
        match remote with
        | .ok _ =>
            (st1, [Event.localMutation, Event.remoteStart, Event.remoteOk])
        | .error e =>
            ({ st1 with
                tasks := st.tasks,
                error := some (errorToMessage e "Failed to move task") },
             [Event.localMutation, Event.remoteStart, Event.remoteErr,
              Event.localRevert])

/-- The input to `addTask`: a `Task` without `id`, `createdAt`, `updatedAt`
and `userId` (`Omit<Task, "id" | "createdAt" | "updatedAt" | "userId">`). -/
structure TaskInput where
  title : String
  description : String
  dueDate : Option String
  priority : Priority
  status : Status
  category : String
  estimatedTime : Option Nat
  actualTime : Option Nat
deriving DecidableEq

/-- The local task object `addTask` builds from the remote-created id, the
input data, the current user's id and the current time
(`src/store/taskStore.ts`, lines 137-143). -/
def mkTask (taskId : String) (d : TaskInput) (uid : String) (now : String) :
    Task :=
  { id := taskId, title := d.title, description := d.description,
    dueDate := d.dueDate, priority := d.priority, status := d.status,
    category := d.category, estimatedTime := d.estimatedTime,
    actualTime := d.actualTime, createdAt := now, updatedAt := now,
    userId := uid }

/--
`addTask` (`src/store/taskStore.ts`, lines 115-159).

Sets loading and clears the error, throws if no user is authenticated
(caught by its own catch block), awaits the remote create, and only after
the remote create returns an id prepends the new task to the local array.
On failure the error message is recorded and local tasks are untouched.
`currentUser` is `auth.currentUser`'s uid; `remote` is the outcome of
`createTask`, returning the new document id.
-/
def addTask (st : TaskState) (currentUser : Option String)
    (taskData : TaskInput) (remote : Except JsValue String) (now : String) :
    TaskState × List Event :=
  let st1 := { st with isLoading := true, error := none }
  match currentUser with
  | none =>
      ({ st1 with
          error := some "No authenticated user found. Please log in again.",
          isLoading := false }, [])
  | some uid =>
      match remote with
      | .ok taskId =>
          ({ st1 with
              tasks := mkTask taskId taskData uid now :: st1.tasks,
              isLoading := false },
           [Event.remoteStart, Event.remoteOk, Event.localMutation])
      | .error e =>
          ({ st1 with
              error := some (errorToMessage e "Failed to add task"),
              isLoading := false },
           [Event.remoteStart, Event.remoteErr])

/-- A `Partial<Task>` update object: each `Task` field optionally present.
`dueDate`, `estimatedTime` and `actualTime` are doubly optional because the
field may be absent, or present holding a null/undefined value. -/
structure TaskUpdates where
  id : Option String
  title : Option String
  description : Option String
  dueDate : Option (Option String)
  priority : Option Priority
  status : Option Status
  category : Option String
  estimatedTime : Option (Option Nat)
  actualTime : Option (Option Nat)
  createdAt : Option String
  updatedAt : Option String
  userId : Option String
deriving DecidableEq

/-- The update object with no fields present. -/
def TaskUpdates.empty : TaskUpdates :=
  { id := none, title := none, description := none, dueDate := none,
    priority := none, status := none, category := none,
    estimatedTime := none, actualTime := none, createdAt := none,
    updatedAt := none, userId := none }

/-- The local spread `{ ...task, ...updates, updatedAt: now }` applied by
the store's `updateTask` to the matching task
(`src/store/taskStore.ts`, lines 186-189): fields present in `updates`
overwrite the task's, and `updatedAt` is set to the current time. -/
def applyUpdatesLocal (t : Task) (u : TaskUpdates) (now : String) : Task :=
  { id := u.id.getD t.id,
    title := u.title.getD t.title,
    description := u.description.getD t.description,
    dueDate := u.dueDate.getD t.dueDate,
    priority := u.priority.getD t.priority,
    status := u.status.getD t.status,
    category := u.category.getD t.category,
    estimatedTime := u.estimatedTime.getD t.estimatedTime,
    actualTime := u.actualTime.getD t.actualTime,
    createdAt := u.createdAt.getD t.createdAt,
    updatedAt := now,
    userId := u.userId.getD t.userId }

/--
The store's `updateTask` (`src/store/taskStore.ts`, lines 168-202).

Sets loading and clears the error, throws if unauthenticated, awaits the
remote update, and only on success maps the update over the local array.
On failure it records the error message and re-throws; the third component
is the re-thrown value (`none` when nothing was thrown), consumed by
`completeTask`.
-/
def storeUpdateTask (st : TaskState) (currentUser : Option String)
    (id : String) (u : TaskUpdates) (remote : Except JsValue Unit)
    (now : String) : TaskState × List Event × Option JsValue :=
  let st1 := { st with isLoading := true, error := none }
  match currentUser with
  | none =>
      ({ st1 with
          error := some "No authenticated user found",
          isLoading := false }, [],
       some (JsValue.error "No authenticated user found"))
  | some _ =>
      match remote with
      | .ok _ =>
          ({ st1 with
              tasks := st1.tasks.map (fun t =>
                if t.id == id then applyUpdatesLocal t u now else t),
              isLoading := false },
           [Event.remoteStart, Event.remoteOk, Event.localMutation], none)
      | .error e =>
          ({ st1 with
              error := some (errorToMessage e "Failed to update task"),
              isLoading := false },
           [Event.remoteStart, Event.remoteErr], some e)

/--
The store's `deleteTask` (`src/store/taskStore.ts`, lines 210-238).

Does not touch the loading flag or clear the error on entry; throws if
unauthenticated, awaits the remote delete, and only on success filters the
task out of the local array.  On failure it records the error message.
-/
def storeDeleteTask (st : TaskState) (currentUser : Option String)
    (id : String) (remote : Except JsValue Unit) : TaskState × List Event :=
  match currentUser with
  | none =>
      ({ st with error := some "No authenticated user" }, [])
  | some _ =>
      match remote with
      | .ok _ =>
          ({ st with tasks := st.tasks.filter (fun t => !(t.id == id)) },
           [Event.remoteStart, Event.remoteOk, Event.localMutation])
      | .error e =>
          ({ st with
              error := some (errorToMessage e "Failed to delete task") },
           [Event.remoteStart, Event.remoteErr])

/-- The update object `{ status: "completed" }` used by `completeTask`. -/
def completedOnly : TaskUpdates :=
  { TaskUpdates.empty with status := some Status.completed }

/--
`completeTask` (`src/store/taskStore.ts`, lines 246-260): delegates to
`updateTask` with `{ status: "completed" }`; when that re-throws,
`completeTask` catches the original thrown value and overwrites the error
message with its own fallback.
-/
def completeTask (st : TaskState) (currentUser : Option String)
    (id : String) (remote : Except JsValue Unit) (now : String) :
    TaskState × List Event :=
  match storeUpdateTask st currentUser id completedOnly remote now with
  | (st1, tr, none) => (st1, tr)
  | (st1, tr, some e) =>
      ({ st1 with
          error := some (errorToMessage e "Failed to complete task") }, tr)

/--
`fetchTasks` (`src/store/taskStore.ts`, lines 70-107).

Sets loading and clears the error; with no authenticated user it empties
the tasks and marks initialized without a remote call; otherwise it awaits
`getUserTasks` and installs the result, or records the error message.
-/
def fetchTasks (st : TaskState) (currentUser : Option String)
    (remote : Except JsValue (List Task)) : TaskState × List Event :=
  let st1 := { st with isLoading := true, error := none }
  match currentUser with
  | none =>
      ({ st1 with tasks := [], isLoading := false, isInitialized := true },
       [])
  | some _ =>
      match remote with
      | .ok ts =>
          ({ st1 with
              tasks := ts, isLoading := false, isInitialized := true },
           [Event.remoteStart, Event.remoteOk, Event.localMutation])
      | .error e =>
          ({ st1 with
              error := some (errorToMessage e "Failed to fetch tasks"),
              isLoading := false, isInitialized := true },
           [Event.remoteStart, Event.remoteErr])

/-- `listPrefixOf needle hay`: `needle` is a prefix of `hay` (character
lists compared with `==`). -/
def listPrefixOf : List Char → List Char → Bool
  | [], _ => true
  | _ :: _, [] => false
  | a :: as, b :: bs => a == b && listPrefixOf as bs

/-- `listInfixOf needle hay`: `needle` occurs contiguously inside `hay` —
the semantics of JavaScript `String.prototype.includes`. -/
def listInfixOf (needle : List Char) : List Char → Bool
  | [] => needle.isEmpty
  | c :: rest => listPrefixOf needle (c :: rest) || listInfixOf needle rest

/-- `hay.toLowerCase().includes(needle.toLowerCase())` — the
case-insensitive containment test used by the search filter
(`src/pages/TasksPage.tsx`, lines 67-68). -/
def containsCI (hay needle : String) : Bool :=
  listInfixOf (needle.toList.map Char.toLower) (hay.toList.map Char.toLower)

/-- The priority filter state of the tasks page
(`'all' | 'low' | 'medium' | 'high'`). -/
inductive PriorityFilter where
  | all
  | low
  | medium
  | high
deriving DecidableEq

/-- The filter value selecting exactly the given priority. -/
def PriorityFilter.ofPriority : Priority → PriorityFilter
  | Priority.low => PriorityFilter.low
  | Priority.medium => PriorityFilter.medium
  | Priority.high => PriorityFilter.high

/-- `filterPriority === 'all' || task.priority === filterPriority`
(`src/pages/TasksPage.tsx`, line 70). -/
def priorityMatches (fp : PriorityFilter) (p : Priority) : Bool :=
  match fp with
  | PriorityFilter.all => true
  | PriorityFilter.low => p == Priority.low
  | PriorityFilter.medium => p == Priority.medium
  | PriorityFilter.high => p == Priority.high

/-- The per-task predicate of the `filteredTasks` computation
(`src/pages/TasksPage.tsx`, lines 66-73): matches the search term against
title or description case-insensitively, and the priority filter. -/
def taskMatches (searchTerm : String) (fp : PriorityFilter) (t : Task) :
    Bool :=
  (containsCI t.title searchTerm || containsCI t.description searchTerm)
    && priorityMatches fp t.priority

/-- `filteredTasks` (`src/pages/TasksPage.tsx`, lines 66-73). -/
def filteredTasks (tasks : List Task) (searchTerm : String)
    (fp : PriorityFilter) : List Task :=
  tasks.filter (taskMatches searchTerm fp)

/-- `pendingTasks` (`src/pages/TasksPage.tsx`, line 75). -/
def pendingTasks (tasks : List Task) (searchTerm : String)
    (fp : PriorityFilter) : List Task :=
  (filteredTasks tasks searchTerm fp).filter
    (fun t => t.status == Status.pending)

/-- `inProgressTasks` (`src/pages/TasksPage.tsx`, line 76). -/
def inProgressTasks (tasks : List Task) (searchTerm : String)
    (fp : PriorityFilter) : List Task :=
  (filteredTasks tasks searchTerm fp).filter
    (fun t => t.status == Status.inProgress)

/-- `completedTasks` (`src/pages/TasksPage.tsx`, line 77). -/
def completedTasks (tasks : List Task) (searchTerm : String)
    (fp : PriorityFilter) : List Task :=
  (filteredTasks tasks searchTerm fp).filter
    (fun t => t.status == Status.completed)

/-- A drag source or destination of `react-beautiful-dnd`: a droppable id
and an index within the column. -/
structure DragLocation where
  droppableId : String
  index : Nat
deriving DecidableEq

/-- The `DropResult` handed to `handleDragEnd`: the dragged task's id, the
source location, and the destination (absent when dropped outside any
droppable). -/
structure DropResult where
  draggableId : String
  source : DragLocation
  destination : Option DragLocation
deriving DecidableEq

/-- The `statusMap` of `handleDragEnd` (`src/pages/TasksPage.tsx`, lines
186-190): the identity map on the three droppable ids, undefined
elsewhere. -/
def statusMap (s : String) : Option Status :=
  if s = "pending" then some Status.pending
  else if s = "in-progress" then some Status.inProgress
  else if s = "completed" then some Status.completed
  else none

/--
`handleDragEnd` (`src/pages/TasksPage.tsx`, lines 147-242), reduced to the
status change it initiates: `some (taskId, newStatus)` when it calls
`moveTask taskId newStatus`, `none` when it returns without initiating a
move.  The guards, in source order: the dragged task must still exist, a
destination must be present, the destination must differ from the source
position, the destination droppable id must map to a status, and that
status must differ from the dragged task's current one.
-/
def handleDragEnd (tasks : List Task) (res : DropResult) :
    Option (String × Status) :=
  match tasks.find? (fun t => t.id == res.draggableId) with
  | none => none
  | some draggedTask =>
      match res.destination with
      | none => none
      | some dest =>
          if res.source.droppableId == dest.droppableId
              && res.source.index == dest.index then
            none
          else
            match statusMap dest.droppableId with
            | none => none
            | some newStatus =>
                if draggedTask.status = newStatus then none
                else some (res.draggableId, newStatus)

/-- The Firestore update payload (`updateData` in `src/lib/firestore.ts`
`updateTask`): a partial document, each field present or absent.  The
`dueDate` field may be present holding null. -/
structure UpdatePayload where
  id : Option String
  title : Option String
  description : Option String
  dueDate : Option (Option String)
  priority : Option Priority
  status : Option Status
  category : Option String
  estimatedTime : Option (Option Nat)
  actualTime : Option (Option Nat)
  createdAt : Option String
  updatedAt : Option String
  userId : Option String
deriving DecidableEq

/-- The spread `{ ...updates, updatedAt: Timestamp.now() }` building the
raw update payload (`src/lib/firestore.ts`, lines 269-279): every field of
`updates` carried over, `updatedAt` forced to the current time.  (The
`dueDate` branch only converts its representation, which the embedding
keeps as a string.) -/
def rawUpdateData (u : TaskUpdates) (now : String) : UpdatePayload :=
  { id := u.id, title := u.title, description := u.description,
    dueDate := u.dueDate, priority := u.priority, status := u.status,
    category := u.category, estimatedTime := u.estimatedTime,
    actualTime := u.actualTime, createdAt := u.createdAt,
    updatedAt := some now, userId := u.userId }

/-- The three `delete updateData.*` statements
(`src/lib/firestore.ts`, lines 281-284): remove `id`, `createdAt` and
`userId` from the payload. -/
def deleteProtectedFields (p : UpdatePayload) : UpdatePayload :=
  { p with id := none, createdAt := none, userId := none }

/-- The payload the remote `updateTask` actually writes: the raw spread
followed by the deletions. -/
def updateTaskPayload (u : TaskUpdates) (now : String) : UpdatePayload :=
  deleteProtectedFields (rawUpdateData u now)

/-- The effect of a Firestore `updateDoc` with payload `p` on a stored
task document: fields present in the payload overwrite the document's,
absent fields are left unchanged. -/
def applyPayload (p : UpdatePayload) (t : Task) : Task :=
  { id := p.id.getD t.id,
    title := p.title.getD t.title,
    description := p.description.getD t.description,
    dueDate := p.dueDate.getD t.dueDate,
    priority := p.priority.getD t.priority,
    status := p.status.getD t.status,
    category := p.category.getD t.category,
    estimatedTime := p.estimatedTime.getD t.estimatedTime,
    actualTime := p.actualTime.getD t.actualTime,
    createdAt := p.createdAt.getD t.createdAt,
    updatedAt := p.updatedAt.getD t.updatedAt,
    userId := p.userId.getD t.userId }

/-- Whether, in an operation's event sequence, a local mutation occurs
before the completion (success or failure) of the backend call. -/
def mutationPrecedesCompletion : List Event → Bool
  | [] => false
  | Event.localMutation :: _ => true
  | Event.remoteOk :: _ => false
  | Event.remoteErr :: _ => false
  | _ :: rest => mutationPrecedesCompletion rest

/-- A tiny concrete task used to instantiate witnesses. -/
def sampleTask : Task :=
  { id := "t1", title := "a", description := "b", dueDate := none,
    priority := Priority.low, status := Status.pending, category := "",
    estimatedTime := none, actualTime := none, createdAt := "c",
    updatedAt := "u", userId := "u1" }

/-- A tiny concrete store state used to instantiate witnesses. -/
def sampleState : TaskState :=
  { tasks := [sampleTask], isLoading := false, error := none,
    isInitialized := true }

/-- A tiny concrete task input used to instantiate witnesses. -/
def sampleInput : TaskInput :=
  { title := "a", description := "b", dueDate := none,
    priority := Priority.low, status := Status.pending, category := "",
    estimatedTime := none, actualTime := none }

/-- C1: if the task named by `taskId` is found with a status different from
`newStatus` and the remote write fails, then after `moveTask` the tasks
array equals its pre-call value (the optimistic change is fully rolled
back) and the error field holds the failure message. -/
theorem C1_moveTask_failure_rolls_back (st : TaskState) (taskId : String)
    (newStatus : Status) (e : JsValue) (t : Task)
    (hfind : st.tasks.find? (fun x => x.id == taskId) = some t)
    (hstatus : t.status ≠ newStatus) :
    (moveTask st taskId newStatus (Except.error e)).1.tasks = st.tasks ∧
    (moveTask st taskId newStatus (Except.error e)).1.error =
      some (errorToMessage e "Failed to move task") := by
  simp [moveTask, hfind, hstatus]

/-- Witness for C1 at a concrete state: a one-task store, a failing remote
write carrying an `Error` with message "boom". -/
theorem C1_witness :
    (moveTask sampleState "t1" Status.completed
        (Except.error (JsValue.error "boom"))).1.tasks = sampleState.tasks ∧
    (moveTask sampleState "t1" Status.completed
        (Except.error (JsValue.error "boom"))).1.error = some "boom" := by
  have h := C1_moveTask_failure_rolls_back sampleState "t1" Status.completed
    (JsValue.error "boom") sampleTask (by decide) (by decide)
  exact ⟨h.1, h.2⟩

/-- C2 counterexample: on a successful `addTask` the local mutation does
NOT precede the completion of the backend call — the store prepends the
task only after the remote create has returned — even though a local
mutation does occur in the operation's event sequence. -/
theorem C2_counterexample :
    mutationPrecedesCompletion
      (addTask sampleState (some "u1") sampleInput (Except.ok "t2") "n").2
      = false ∧
    Event.localMutation ∈
      (addTask sampleState (some "u1") sampleInput
        (Except.ok "t2") "n").2 := by
  constructor
  · rfl
  · simp [addTask, sampleState]

/-- C2 (amended): only `moveTask` mutates the local tasks array before the
remote write completes, and reverts the mutation on failure; `addTask`,
`updateTask` and `deleteTask` perform the remote write first and mutate
local state only after it succeeds, so when the write fails they leave the
tasks array unchanged and perform no local mutation at all. -/
theorem C2_amended_optimistic_only_moveTask (st : TaskState)
    (uid id taskId now : String) (d : TaskInput) (u : TaskUpdates)
    (ns : Status) (t : Task) (e : JsValue) (r : Except JsValue Unit)
    (hfind : st.tasks.find? (fun x => x.id == taskId) = some t)
    (hne : t.status ≠ ns) :
    mutationPrecedesCompletion (moveTask st taskId ns r).2 = true ∧
    Event.localRevert ∈ (moveTask st taskId ns (Except.error e)).2 ∧
    (moveTask st taskId ns (Except.error e)).1.tasks = st.tasks ∧
    mutationPrecedesCompletion
      (addTask st (some uid) d (Except.ok id) now).2 = false ∧
    Event.localMutation ∈ (addTask st (some uid) d (Except.ok id) now).2 ∧
    (addTask st (some uid) d (Except.error e) now).1.tasks = st.tasks ∧
    Event.localMutation ∉
      (addTask st (some uid) d (Except.error e) now).2 ∧
    mutationPrecedesCompletion
      (storeUpdateTask st (some uid) id u (Except.ok ()) now).2.1 = false ∧
    Event.localMutation ∈
      (storeUpdateTask st (some uid) id u (Except.ok ()) now).2.1 ∧
    (storeUpdateTask st (some uid) id u (Except.error e) now).1.tasks
      = st.tasks ∧
    Event.localMutation ∉
      (storeUpdateTask st (some uid) id u (Except.error e) now).2.1 ∧
    mutationPrecedesCompletion
      (storeDeleteTask st (some uid) id (Except.ok ())).2 = false ∧
    Event.localMutation ∈
      (storeDeleteTask st (some uid) id (Except.ok ())).2 ∧
    (storeDeleteTask st (some uid) id (Except.error e)).1.tasks
      = st.tasks ∧
    Event.localMutation ∉
      (storeDeleteTask st (some uid) id (Except.error e)).2 := by
  refine ⟨?_, ?_, ?_, rfl, ?_, rfl, ?_, rfl, ?_, rfl, ?_, rfl, ?_, rfl, ?_⟩
  · cases r with
    | ok v => simp [moveTask, hfind, hne]; rfl
    | error e2 => simp [moveTask, hfind, hne]; rfl
  · simp [moveTask, hfind, hne]
  · simp [moveTask, hfind, hne]
  · simp [addTask]
  · simp [addTask]
  · simp [storeUpdateTask]
  · simp [storeUpdateTask]
  · simp [storeDeleteTask]
  · simp [storeDeleteTask]

/-- Witness for the amended C2 at a concrete store: `moveTask` mutates
before remote completion, `addTask` does not. -/
theorem C2_amended_witness :
    mutationPrecedesCompletion
      (moveTask sampleState "t1" Status.completed (Except.ok ())).2
      = true ∧
    mutationPrecedesCompletion
      (addTask sampleState (some "u1") sampleInput (Except.ok "t2") "n").2
      = false := by
  have h := C2_amended_optimistic_only_moveTask sampleState "u1" "t2" "t1"
    "n" sampleInput TaskUpdates.empty Status.completed sampleTask
    JsValue.nonError (Except.ok ()) (by decide) (by decide)
  exact ⟨h.1, h.2.2.2.1⟩

/-- C3: for every store operation performing a backend call, when the call
throws the caught value's message (or the operation's fixed fallback when
the thrown value is not an `Error`) is stored in the error field as a
string — never left null. -/
theorem C3_backend_errors_surfaced (st : TaskState)
    (uid id taskId now : String) (d : TaskInput) (u : TaskUpdates)
    (ns : Status) (t : Task) (e : JsValue)
    (hfind : st.tasks.find? (fun x => x.id == taskId) = some t)
    (hne : t.status ≠ ns) :
    (fetchTasks st (some uid) (Except.error e)).1.error
      = some (errorToMessage e "Failed to fetch tasks") ∧
    (addTask st (some uid) d (Except.error e) now).1.error
      = some (errorToMessage e "Failed to add task") ∧
    (storeUpdateTask st (some uid) id u (Except.error e) now).1.error
      = some (errorToMessage e "Failed to update task") ∧
    (storeDeleteTask st (some uid) id (Except.error e)).1.error
      = some (errorToMessage e "Failed to delete task") ∧
    (completeTask st (some uid) id (Except.error e) now).1.error
      = some (errorToMessage e "Failed to complete task") ∧
    (moveTask st taskId ns (Except.error e)).1.error
      = some (errorToMessage e "Failed to move task") := by
  refine ⟨rfl, rfl, rfl, rfl, ?_, ?_⟩
  · simp [completeTask, storeUpdateTask]
  · simp [moveTask, hfind, hne]

/-- Witness for C3 at a concrete store and a concrete non-`Error` thrown
value: every operation records its fixed fallback message. -/
theorem C3_witness :
    (moveTask sampleState "t1" Status.completed
        (Except.error JsValue.nonError)).1.error
      = some "Failed to move task" ∧
    (completeTask sampleState (some "u1") "t1"
        (Except.error JsValue.nonError) "n").1.error
      = some "Failed to complete task" := by
  have h := C3_backend_errors_surfaced sampleState "u1" "t1" "t1" "n"
    sampleInput TaskUpdates.empty Status.completed sampleTask
    JsValue.nonError (by decide) (by decide)
  exact ⟨h.2.2.2.2.2, h.2.2.2.2.1⟩

/-- C5: a successful `addTask` prepends to the unchanged previous array a
task whose id is the remote-created id, whose fields equal the given
input, and whose owner is the current user. -/
theorem C5_addTask_success (st : TaskState) (uid tid now : String)
    (d : TaskInput) :
    (addTask st (some uid) d (Except.ok tid) now).1.tasks
      = mkTask tid d uid now :: st.tasks ∧
    (mkTask tid d uid now).id = tid ∧
    (mkTask tid d uid now).title = d.title ∧
    (mkTask tid d uid now).description = d.description ∧
    (mkTask tid d uid now).dueDate = d.dueDate ∧
    (mkTask tid d uid now).priority = d.priority ∧
    (mkTask tid d uid now).status = d.status ∧
    (mkTask tid d uid now).category = d.category ∧
    (mkTask tid d uid now).estimatedTime = d.estimatedTime ∧
    (mkTask tid d uid now).actualTime = d.actualTime ∧
    (mkTask tid d uid now).userId = uid := by
  exact ⟨rfl, rfl, rfl, rfl, rfl, rfl, rfl, rfl, rfl, rfl, rfl⟩

/-- C6: a successful `deleteTask id` removes exactly the tasks whose id
equals `id`, keeping the remaining tasks unchanged and in the same
relative order (the result is a sublist of the previous array). -/
theorem C6_deleteTask_success (st : TaskState) (uid id : String)
    (t : Task) :
    (storeDeleteTask st (some uid) id (Except.ok ())).1.tasks
      = st.tasks.filter (fun x => !(x.id == id)) ∧
    List.Sublist
      (storeDeleteTask st (some uid) id (Except.ok ())).1.tasks
      st.tasks ∧
    (t ∈ (storeDeleteTask st (some uid) id (Except.ok ())).1.tasks ↔
      t ∈ st.tasks ∧ t.id ≠ id) := by
  refine ⟨rfl, ?_, ?_⟩
  · exact List.filter_sublist st.tasks
  · simp [storeDeleteTask, List.mem_filter]

/-- C10: the remote update payload never contains `id`, `createdAt` or
`userId` (they are deleted before the write), so applying it to any stored
task document leaves the document's id, creation timestamp and owner
unchanged, whatever the caller passed in `updates`. -/
theorem C10_update_payload_protected (u : TaskUpdates) (now : String)
    (t : Task) :
    (updateTaskPayload u now).id = none ∧
    (updateTaskPayload u now).createdAt = none ∧
    (updateTaskPayload u now).userId = none ∧
    (applyPayload (updateTaskPayload u now) t).id = t.id ∧
    (applyPayload (updateTaskPayload u now) t).createdAt = t.createdAt ∧
    (applyPayload (updateTaskPayload u now) t).userId = t.userId := by
  exact ⟨rfl, rfl, rfl, rfl, rfl, rfl⟩

/-- The empty character list occurs in every list. -/
theorem listInfixOf_nil (l : List Char) : listInfixOf [] l = true := by
  induction l with
  | nil => rfl
  | cons c rest ih => simp [listInfixOf, listPrefixOf, ih]

/-- Every string contains the empty search term. -/
theorem containsCI_empty (hay : String) : containsCI hay "" = true := by
  have h : "".toList.map Char.toLower = [] := rfl
  rw [containsCI, h, listInfixOf_nil]

/-- `priorityMatches` holds exactly when the filter is `all` or selects
the task's priority. -/
theorem priorityMatches_iff (fp : PriorityFilter) (p : Priority) :
    priorityMatches fp p = true ↔
      fp = PriorityFilter.all ∨ fp = PriorityFilter.ofPriority p := by
  cases fp <;> cases p <;> decide

/-- C4: the filtered task list contains exactly the tasks matching the
search term case-insensitively in title or description and matching the
priority filter; with the empty search term only the priority filter
remains. -/
theorem C4_filteredTasks_characterization (tasks : List Task)
    (searchTerm : String) (fp : PriorityFilter) (t : Task) :
    (t ∈ filteredTasks tasks searchTerm fp ↔
      t ∈ tasks ∧
        (containsCI t.title searchTerm = true ∨
          containsCI t.description searchTerm = true) ∧
        (fp = PriorityFilter.all ∨
          fp = PriorityFilter.ofPriority t.priority)) ∧
    (t ∈ filteredTasks tasks "" fp ↔
      t ∈ tasks ∧
        (fp = PriorityFilter.all ∨
          fp = PriorityFilter.ofPriority t.priority)) := by
  constructor
  · simp [filteredTasks, List.mem_filter, taskMatches, Bool.and_eq_true,
      Bool.or_eq_true, priorityMatches_iff, and_assoc]
  · simp [filteredTasks, List.mem_filter, taskMatches, Bool.and_eq_true,
      Bool.or_eq_true, priorityMatches_iff, containsCI_empty, and_assoc]

/-- C7: `handleDragEnd` initiates the move `(draggableId, s)` exactly when
the dragged task exists, a destination is present differing from the
source position, the destination droppable id maps to status `s`, and `s`
differs from the dragged task's current status; and any move it initiates
is for the dragged task's id. -/
theorem C7_handleDragEnd_characterization (tasks : List Task)
    (res : DropResult) :
    (∀ s : Status,
      handleDragEnd tasks res = some (res.draggableId, s) ↔
        ∃ t, tasks.find? (fun x => x.id == res.draggableId) = some t ∧
          ∃ dest, res.destination = some dest ∧
            ¬(dest.droppableId = res.source.droppableId ∧
              dest.index = res.source.index) ∧
            statusMap dest.droppableId = some s ∧
            t.status ≠ s) ∧
    (handleDragEnd tasks res = none ∨
      ∃ s : Status,
        handleDragEnd tasks res = some (res.draggableId, s)) := by
  cases hfind : tasks.find? (fun x => x.id == res.draggableId) with
  | none =>
      refine ⟨fun s => ?_, Or.inl ?_⟩ <;> simp [handleDragEnd, hfind]
  | some t0 =>
      cases hdest : res.destination with
      | none =>
          refine ⟨fun s => ?_, Or.inl ?_⟩ <;>
            simp [handleDragEnd, hfind, hdest]
      | some dest =>
          by_cases hpos : res.source.droppableId == dest.droppableId
              && res.source.index == dest.index
          · refine ⟨fun s => ?_, Or.inl ?_⟩ <;>
              simp_all [handleDragEnd, hfind, hdest, hpos,
                Bool.and_eq_true, beq_iff_eq]
          · cases hmap : statusMap dest.droppableId with
            | none =>
                refine ⟨fun s => ?_, Or.inl ?_⟩ <;>
                  simp_all [handleDragEnd, hfind, hdest, hpos, hmap,
                    Bool.and_eq_true, beq_iff_eq]
            | some ns =>
                by_cases hstat : t0.status = ns
                · refine ⟨fun s => ?_, Or.inl ?_⟩ <;>
                    simp_all [handleDragEnd, hfind, hdest, hpos, hmap,
                      Bool.and_eq_true, beq_iff_eq]
                · constructor
                  · intro s
                    simp_all [handleDragEnd, hfind, hdest, hpos, hmap,
                      Bool.and_eq_true, beq_iff_eq]
                    constructor
                    · intro h
                      subst h
                      exact ⟨fun hd hi => hpos hd.symm hi.symm, rfl, hstat⟩
                    · rintro ⟨h1, h2, h3⟩
                      exact h2
                  · right
                    exact ⟨ns, by
                      simp [handleDragEnd, hfind, hdest, hpos, hmap,
                        hstat]⟩

/-- C8: `moveTask` on an unknown task id records "Task ... not found" and
leaves the tasks array unchanged without any remote write; on a task whose
status already equals the requested one it changes nothing and performs no
remote write. -/
theorem C8_moveTask_guards (st : TaskState) (taskId : String) (ns : Status)
    (remote : Except JsValue Unit) (t : Task) :
    (st.tasks.find? (fun x => x.id == taskId) = none →
      (moveTask st taskId ns remote).1.tasks = st.tasks ∧
      (moveTask st taskId ns remote).1.error
        = some ("Task " ++ taskId ++ " not found") ∧
      (moveTask st taskId ns remote).2 = []) ∧
    (st.tasks.find? (fun x => x.id == taskId) = some t → t.status = ns →
      (moveTask st taskId ns remote).1 = st ∧
      (moveTask st taskId ns remote).2 = []) := by
  constructor
  · intro hfind
    simp [moveTask, hfind]
  · intro hfind hstat
    simp [moveTask, hfind, hstat]

/-- Witness for C8 at a concrete store: an absent id sets the not-found
error; a same-status move is a no-op with an empty event list. -/
theorem C8_witness :
    (moveTask sampleState "zz" Status.completed (Except.ok ())).1.error
      = some ("Task " ++ "zz" ++ " not found") ∧
    (moveTask sampleState "t1" Status.pending (Except.ok ())).1
      = sampleState ∧
    (moveTask sampleState "t1" Status.pending (Except.ok ())).2 = [] := by
  have h1 := (C8_moveTask_guards sampleState "zz" Status.completed
    (Except.ok ()) sampleTask).1 (by decide)
  have h2 := (C8_moveTask_guards sampleState "t1" Status.pending
    (Except.ok ()) sampleTask).2 (by decide) (by decide)
  exact ⟨h1.2.1, h2.1, h2.2⟩

/-- The three status filters of a task list have lengths summing to the
list's length: every task's status is exactly one of the three. -/
theorem status_filter_length (l : List Task) :
    (l.filter (fun t => t.status == Status.pending)).length
      + (l.filter (fun t => t.status == Status.inProgress)).length
      + (l.filter (fun t => t.status == Status.completed)).length
      = l.length := by
  induction l with
  | nil => rfl
  | cons t rest ih =>
      cases h : t.status <;>
        simp [List.filter_cons, h, Nat.add_assoc, Nat.add_comm,
          Nat.add_left_comm] <;> omega

/-- C9: the three status columns partition the filtered task list — the
column lengths sum to the filtered list's length, and every filtered task
belongs to exactly one column. -/
theorem C9_columns_partition (tasks : List Task) (s : String)
    (fp : PriorityFilter) :
    ((pendingTasks tasks s fp).length + (inProgressTasks tasks s fp).length
      + (completedTasks tasks s fp).length
      = (filteredTasks tasks s fp).length) ∧
    ∀ t ∈ filteredTasks tasks s fp,
      (t ∈ pendingTasks tasks s fp ∧ t ∉ inProgressTasks tasks s fp ∧
        t ∉ completedTasks tasks s fp) ∨
      (t ∉ pendingTasks tasks s fp ∧ t ∈ inProgressTasks tasks s fp ∧
        t ∉ completedTasks tasks s fp) ∨
      (t ∉ pendingTasks tasks s fp ∧ t ∉ inProgressTasks tasks s fp ∧
        t ∈ completedTasks tasks s fp) := by
  constructor
  · exact status_filter_length (filteredTasks tasks s fp)
  · intro t ht
    cases h : t.status with
    | pending =>
        exact Or.inl (by
          simp [pendingTasks, inProgressTasks, completedTasks,
            List.mem_filter, h, ht])
    | inProgress =>
        exact Or.inr (Or.inl (by
          simp [pendingTasks, inProgressTasks, completedTasks,
            List.mem_filter, h, ht]))
    | completed =>
        exact Or.inr (Or.inr (by
          simp [pendingTasks, inProgressTasks, completedTasks,
            List.mem_filter, h, ht]))

/-- Witness for C9 at a concrete one-task list: the pending task appears
in the pending column and in neither other column. -/
theorem C9_witness :
    sampleTask ∈ pendingTasks [sampleTask] "" PriorityFilter.all ∧
    sampleTask ∉ inProgressTasks [sampleTask] "" PriorityFilter.all ∧
    sampleTask ∉ completedTasks [sampleTask] "" PriorityFilter.all := by
  have hmem : sampleTask ∈ filteredTasks [sampleTask] "" PriorityFilter.all
    := by decide
  have hp : sampleTask ∈ pendingTasks [sampleTask] "" PriorityFilter.all
    := by decide
  have h := (C9_columns_partition [sampleTask] "" PriorityFilter.all).2
    sampleTask hmem
  rcases h with h | h | h
  · exact h
  · exact absurd hp h.1
  · exact absurd hp h.1

end TaskMind
